import Mathlib

/-!
# DB2 statement driver (`dbd/db2/statement.c`)

A shallow embedding of the statement object of the DB2 driver: the type
conversion rule `db2_to_lua_push`, and the operations `statement_close`,
`statement_execute`, `statement_fetch_impl`, `statement_gc` and
`dbd_db2_statement_create`.

The vendor client library and the C allocator are outside the program.  Each
operation therefore takes a record of the answers the native layer gives
during that one call, and returns, next to its Lua results and the new
statement, the list of the native and allocator calls it made, in order.
Heap blocks are named by numbers handed out from a counter; a pointer is an
`Option Nat`, `none` being `NULL`.
-/

namespace DbdDb2

/-! ## Constants of the vendor CLI header and of the Lua header -/

/-- Return code `SQL_SUCCESS` of the CLI. -/
def SQL_SUCCESS : Int := 0
/-- Return code `SQL_SUCCESS_WITH_INFO` of the CLI. -/
def SQL_SUCCESS_WITH_INFO : Int := 1
/-- Return code `SQL_NO_DATA_FOUND` of the CLI. -/
def SQL_NO_DATA_FOUND : Int := 100
/-- Return code `SQL_ERROR` of the CLI. -/
def SQL_ERROR : Int := -1
/-- Length indicator `SQL_NULL_DATA` of the CLI. -/
def SQL_NULL_DATA : Int := -1
/-- Type code `SQL_DECIMAL`. -/
def SQL_DECIMAL : Int := 3
/-- Type code `SQL_INTEGER`. -/
def SQL_INTEGER : Int := 4
/-- Type code `SQL_SMALLINT`. -/
def SQL_SMALLINT : Int := 5
/-- Type code `SQL_VARCHAR`. -/
def SQL_VARCHAR : Int := 12
/-- C type code `SQL_C_CHAR`. -/
def SQL_C_CHAR : Int := 1
/-- C type code `SQL_C_LONG`. -/
def SQL_C_LONG : Int := 4
/-- C type code `SQL_C_DOUBLE`. -/
def SQL_C_DOUBLE : Int := 8

/-- Lua type tag `LUA_TNIL`. -/
def LUA_TNIL : Int := 0
/-- Lua type tag `LUA_TBOOLEAN`. -/
def LUA_TBOOLEAN : Int := 1
/-- Lua type tag `LUA_TLIGHTUSERDATA`. -/
def LUA_TLIGHTUSERDATA : Int := 2
/-- Lua type tag `LUA_TNUMBER`. -/
def LUA_TNUMBER : Int := 3
/-- Lua type tag `LUA_TSTRING`. -/
def LUA_TSTRING : Int := 4
/-- Lua type tag `LUA_TTABLE`. -/
def LUA_TTABLE : Int := 5
/-- Lua type tag `LUA_TFUNCTION`. -/
def LUA_TFUNCTION : Int := 6
/-- Lua type tag `LUA_TUSERDATA`. -/
def LUA_TUSERDATA : Int := 7
/-- Lua type tag `LUA_TTHREAD`. -/
def LUA_TTHREAD : Int := 8

/-- Size of a C `double` in bytes. -/
def sizeof_double : Nat := 8
/-- Size of a C `int` in bytes. -/
def sizeof_int : Nat := 4

/-! ## Data model -/

/-- A value on the Lua stack passed to `statement:execute(...)`.  A number
carries the bit pattern of its double, a string its bytes. -/
inductive LuaArg
  | nil
  | boolean (b : Bool)
  | lightuserdata
  | number (bits : Nat)
  | string (bytes : List Nat)
  | table
  | function
  | userdata
  | thread
  deriving DecidableEq, Repr

/-- The Lua API function `lua_type` on an argument that is present. -/
def lua_type : LuaArg → Int
  | .nil => LUA_TNIL
  | .boolean _ => LUA_TBOOLEAN
  | .lightuserdata => LUA_TLIGHTUSERDATA
  | .number _ => LUA_TNUMBER
  | .string _ => LUA_TSTRING
  | .table => LUA_TTABLE
  | .function => LUA_TFUNCTION
  | .userdata => LUA_TUSERDATA
  | .thread => LUA_TTHREAD

/-- The Lua API function `lua_typename`. -/
def lua_typename (t : Int) : String :=
  if t = LUA_TNIL then "nil"
  else if t = LUA_TBOOLEAN then "boolean"
  else if t = LUA_TLIGHTUSERDATA then "userdata"
  else if t = LUA_TNUMBER then "number"
  else if t = LUA_TSTRING then "string"
  else if t = LUA_TTABLE then "table"
  else if t = LUA_TFUNCTION then "function"
  else if t = LUA_TUSERDATA then "userdata"
  else if t = LUA_TTHREAD then "thread"
  else "no value"

/-- Modelled from the spec: the `DBI_ERR_*` message formats of the missing
`dbd/common.h`, kept as names since their text is not in the source. -/
inductive DbiErr
  | DBI_ERR_EXECUTE_INVALID
  | DBI_ERR_BINDING_TYPE_ERR
  | DBI_ERR_BINDING_PARAMS
  | DBI_ERR_PREP_STATEMENT
  | DBI_ERR_DESC_RESULT
  | DBI_ERR_ALLOC_RESULT
  | DBI_ERR_ALLOC_STATEMENT
  | DBI_ERR_UNKNOWN_PUSH
  deriving DecidableEq, Repr

/-- A C string handed to a message format: plain text (a type name, or the
diagnostic text the native layer returned), the result of
`snprintf(buf, size, format, arg)`, or the bytes of an array that is read
after its lifetime has ended, `last` being what it held when it ended; C
does not say what such a read gives. -/
inductive CStr
  | text (s : String)
  | snprintf (size : Nat) (format : DbiErr) (arg : String)
  | expired (last : CStr)
  deriving DecidableEq, Repr

/-- A value the driver pushes as a result of `execute`. -/
inductive LuaRet
  | nil
  | boolean (b : Bool)
  | string (format : DbiErr)
  | fstring (format : DbiErr) (arg : CStr)
  deriving DecidableEq, Repr

/-- Modelled from the spec: `lua_push_type_t` of the missing `dbd/common.h`,
the host value kinds {Nil, Integer, Number, Boolean, String}.  A C enum can
hold any integer, which `unknown` stands for. -/
inductive lua_push_type_t
  | LUA_PUSH_NIL
  | LUA_PUSH_INTEGER
  | LUA_PUSH_NUMBER
  | LUA_PUSH_BOOLEAN
  | LUA_PUSH_STRING
  | unknown (code : Int)
  deriving DecidableEq, Repr

/-- Modelled from the spec: `resultset_t` of the missing `dbd_db2.h`, one
column descriptor (name, native type code, declared size, declared scale). -/
structure resultset_t where
  name : List Char
  name_len : Int
  type : Int
  size : Int
  scale : Int
  deriving DecidableEq, Repr

/-- Modelled from the spec: `bindparams_t` of the missing `dbd_db2.h`, one
bind slot (receive buffer, capacity, length written by the last fetch). -/
structure bindparams_t where
  buffer : Option Nat
  buffer_len : Int
  len : Int
  deriving DecidableEq, Repr

/-- Modelled from the spec: `statement_t` of the missing `dbd_db2.h`.  An
array field holds the pointer together with the array it points to; the pair
stays in the field when the block is freed, as the pointer does in C.  The
handle `stmt` is a number, `0` being the null handle. -/
structure statement_t where
  resultset : Option (Nat × List resultset_t)
  bind : Option (Nat × List bindparams_t)
  num_result_columns : Int
  stmt : Nat
  db2 : Nat
  deriving DecidableEq, Repr

/-- What a block is allocated for; `sizeof(resultset_t)` and
`sizeof(bindparams_t)` are not in the source, so array sizes are counted in
elements. -/
inductive AllocSize
  | descriptors (count : Int)
  | bindslots (count : Int)
  | bytes (n : Int)
  deriving DecidableEq, Repr

/-- The address passed to `SQLBindParameter` as the parameter value. -/
inductive ParamPtr
  | null
  | scratch (block : Nat) (byteOffset : Nat)
  | luaString (bytes : List Nat)
  deriving DecidableEq, Repr

/-- The arguments of one `SQLBindParameter` call. -/
structure BindCall where
  ipar : Nat
  ctype : Int
  sqltype : Int
  colsize : Nat
  value : ParamPtr
  buflen : Nat
  nullIndicator : Bool
  deriving DecidableEq, Repr

/-- One call into the native layer or the allocator. -/
inductive Event
  | SQLFreeHandle (h : Nat)
  | free (p : Option Nat)
  | malloc (p : Nat) (size : AllocSize)
  | realloc (old : Option Nat) (size : Nat) (result : Option Nat)
  | store (block : Nat) (byteOffset : Nat) (width : Nat)
  | SQLBindParameter (h : Nat) (c : BindCall)
  | SQLExecute (h : Nat)
  | SQLNumResultCols (h : Nat)
  | SQLDescribeCol (h : Nat) (col : Nat)
  | SQLBindCol (h : Nat) (col : Nat) (buffer : Option Nat) (buffer_len : Int)
  | SQLGetDiagRec (h : Nat)
  | SQLFetch (h : Nat)
  deriving DecidableEq, Repr

/-! ## Type conversion -/

/-- The function `db2_to_lua_push` (statement.c, lines 3-22). -/
def db2_to_lua_push (db2_type : Nat) (len : Int) : lua_push_type_t :=
  if len = SQL_NULL_DATA then .LUA_PUSH_NIL
  else if (db2_type : Int) = SQL_SMALLINT ∨ (db2_type : Int) = SQL_INTEGER then
    .LUA_PUSH_INTEGER
  else if (db2_type : Int) = SQL_DECIMAL then .LUA_PUSH_NUMBER
  else .LUA_PUSH_STRING

/-- The rule of the specification for the host value kind of a column: null
when the fetched length is the null sentinel, whatever the type; otherwise
integer for small and standard integers, number for decimals, and text for
every other type. -/
def push_kind_reference (t : Nat) (len : Int) : lua_push_type_t :=
  if len = SQL_NULL_DATA then .LUA_PUSH_NIL
  else if (t : Int) = SQL_DECIMAL then .LUA_PUSH_NUMBER
  else if (t : Int) = SQL_INTEGER then .LUA_PUSH_INTEGER
  else if (t : Int) = SQL_SMALLINT then .LUA_PUSH_INTEGER
  else .LUA_PUSH_STRING

/-! ## Close -/

/-- The frees of the receive buffers in the loop of `statement_close`
(lines 40-42): `free(bind[i].buffer)` for `i` below the column count.  A read
past the end of the array is shown as a free of `none`. -/
def close_buffers (bs : List bindparams_t) : Nat → Nat → List Event
  | 0, _ => []
  | k + 1, i =>
    Event.free ((bs[i]?).bind (fun b => b.buffer)) :: close_buffers bs k (i + 1)

/-- The function `statement_close` (lines 27-51): the new statement and the
calls made.  No field but the column count is written. -/
def statement_close (s : statement_t) : statement_t × List Event :=
  if s.stmt ≠ 0 then
    let e1 := [Event.SQLFreeHandle s.stmt]
    let e2 := match s.resultset with
      | some (p, _) => [Event.free (some p)]
      | none => []
    let e3 := match s.bind with
      | some (p, bs) =>
        close_buffers bs s.num_result_columns.toNat 0 ++ [Event.free (some p)]
      | none => []
    ({ s with num_result_columns := 0 }, e1 ++ e2 ++ e3)
  else (s, [])

/-- The function `statement_gc` (lines 335-340). -/
def statement_gc (s : statement_t) : statement_t × List Event :=
  statement_close s

/-! ## Execute -/

/-- The answers of the native layer during one `statement_execute`: the
return code of each call, the column count `SQLNumResultCols` stores (`none`
when it stores nothing), the descriptor `SQLDescribeCol` fills in, and the
diagnostic text `SQLGetDiagRec` returns. -/
structure ExecNative where
  SQLBindParameter : BindCall → Int
  SQLExecute : Int
  SQLNumResultCols : Option Int
  SQLDescribeCol : Nat → Int × resultset_t
  SQLBindCol : Nat → Int
  SQLGetDiagRec : String

/-- The test of lines 93, 101, 106 and 114 on the return code of a parameter
bind: `rc != SQL_SUCCESS && rc != SQL_SUCCESS_WITH_INFO`. -/
def bind_failed (rc : Int) : Bool :=
  decide (rc ≠ SQL_SUCCESS) && decide (rc ≠ SQL_SUCCESS_WITH_INFO)

/-- A point of an execution at which C gives the program no defined
behaviour: a store past the end of the scratch block (of `size` bytes at that
moment), or a read of a block-scoped object after its block has ended. -/
inductive Undefined
  | storeOutOfBounds (block : Nat) (byteOffset : Nat) (width : Nat) (size : Nat)
  | readExpired (object : String)
  deriving DecidableEq, Repr

/-- The undefined point of a store of `width` bytes at `byteOffset` into a
block of `size` bytes, if it is one. -/
def store_check (block byteOffset width size : Nat) : List Undefined :=
  if byteOffset + width ≤ size then []
  else [.storeOutOfBounds block byteOffset width size]

/-- The locals of `statement_execute` after the parameter loop, or after one
pass of it, with the calls made and the undefined points met.  `errstr` shows
what the array `err` of the pass holds when `errstr` points to it. -/
structure BindOutcome where
  errflag : Bool
  errstr : Option CStr
  buffer : Option Nat
  offset : Nat
  next : Nat
  trace : List Event
  undefined : List Undefined
  deriving DecidableEq, Repr

/-- One pass of the parameter loop (lines 81-123) for the value `v` at
parameter number `i`.  `realloc` of the scratch is taken to succeed and keeps
the block (a fresh one when `buffer` is `NULL`); `(double *)buffer + offset`
and `(int *)buffer + offset` are `offset` elements, not bytes, past the
start, and a store that falls outside the block is an undefined point, after
which the pass is shown as it runs when the store disturbs nothing. -/
def bind_one (N : ExecNative) (h : Nat) (v : LuaArg) (i : Nat)
    (buffer : Option Nat) (offset : Nat) (next : Nat) : BindOutcome :=
  let blk := buffer.getD next
  let next1 := if buffer.isSome then next else next + 1
  match v with
  | .nil =>
    let c : BindCall := ⟨i, SQL_C_LONG, SQL_INTEGER, 0, .null, 0, true⟩
    ⟨bind_failed (N.SQLBindParameter c), none, buffer, offset, next,
      [Event.SQLBindParameter h c], []⟩
  | .number _ =>
    let c : BindCall :=
      ⟨i, SQL_C_DOUBLE, SQL_DECIMAL, 10, .scratch blk (offset * sizeof_double), 0, false⟩
    ⟨bind_failed (N.SQLBindParameter c), none, some blk, offset + sizeof_double, next1,
      [Event.realloc buffer (offset + sizeof_double) (some blk),
       Event.store blk (offset * sizeof_double) sizeof_double,
       Event.SQLBindParameter h c],
      store_check blk (offset * sizeof_double) sizeof_double (offset + sizeof_double)⟩
  | .string bytes =>
    let c : BindCall := ⟨i, SQL_C_CHAR, SQL_VARCHAR, 0, .luaString bytes, bytes.length, false⟩
    ⟨bind_failed (N.SQLBindParameter c), none, buffer, offset, next,
      [Event.SQLBindParameter h c], []⟩
  | .boolean _ =>
    let c : BindCall :=
      ⟨i, SQL_C_LONG, SQL_INTEGER, 0, .scratch blk (offset * sizeof_int), 0, false⟩
    ⟨bind_failed (N.SQLBindParameter c), none, some blk, offset + sizeof_int, next1,
      [Event.realloc buffer (offset + sizeof_int) (some blk),
       Event.store blk (offset * sizeof_int) sizeof_int,
       Event.SQLBindParameter h c],
      store_check blk (offset * sizeof_int) sizeof_int (offset + sizeof_int)⟩
  | other =>
    ⟨true, some (.snprintf 63 .DBI_ERR_BINDING_TYPE_ERR (lua_typename (lua_type other))),
      buffer, offset, next, [], []⟩

/-- The parameter loop of `statement_execute` (lines 80-127): it stops at the
first pass that sets `errflag`. -/
def bind_params (N : ExecNative) (h : Nat) :
    List LuaArg → Nat → Option Nat → Nat → Nat → BindOutcome
  | [], _, buffer, offset, next => ⟨false, none, buffer, offset, next, [], []⟩
  | v :: rest, i, buffer, offset, next =>
    let r := bind_one N h v i buffer offset next
    if r.errflag then r
    else
      let t := bind_params N h rest (i + 1) r.buffer r.offset r.next
      { t with trace := r.trace ++ t.trace, undefined := r.undefined ++ t.undefined }

/-- The local arrays of `statement_execute` after the column loop, the message
format of the failure that left the loop (if one did), and the calls made. -/
structure ColsOutcome where
  failed : Option DbiErr
  rs : List resultset_t
  bs : List bindparams_t
  next : Nat
  trace : List Event
  deriving DecidableEq, Repr

/-- Conversion of an integer to a 32-bit signed integer (`SQLINTEGER`,
`int`), wrapping around. -/
def to_int32 (x : Int) : Int := (x + 2147483648) % 4294967296 - 2147483648

/-- The column loop of `statement_execute` (lines 165-208), `k` columns from
index `i` on.  The capacity `size + 1` is a 32-bit integer and wraps around;
`malloc` of the receive buffer is taken to succeed. -/
def describe_columns (N : ExecNative) (h : Nat) :
    Nat → Nat → List resultset_t → List bindparams_t → Nat → ColsOutcome
  | 0, _, rs, bs, next => ⟨none, rs, bs, next, []⟩
  | k + 1, i, rs, bs, next =>
    let d := N.SQLDescribeCol (i + 1)
    let rs1 := rs.set i d.2
    if d.1 ≠ SQL_SUCCESS then
      ⟨some .DBI_ERR_DESC_RESULT, rs1, bs, next,
        [Event.SQLDescribeCol h (i + 1), Event.SQLGetDiagRec h]⟩
    else
      let buffer_len := to_int32 (d.2.size + 1)
      let bs1 := bs.modify
        (fun b => { b with buffer := some next, buffer_len := buffer_len }) i
      if N.SQLBindCol (i + 1) ≠ SQL_SUCCESS then
        ⟨some .DBI_ERR_ALLOC_RESULT, rs1, bs1, next + 1,
          [Event.SQLDescribeCol h (i + 1), Event.malloc next (.bytes buffer_len),
           Event.SQLBindCol h (i + 1) (some next) buffer_len, Event.SQLGetDiagRec h]⟩
      else
        let t := describe_columns N h k (i + 1) rs1 bs1 (next + 1)
        { t with trace :=
            [Event.SQLDescribeCol h (i + 1), Event.malloc next (.bytes buffer_len),
             Event.SQLBindCol h (i + 1) (some next) buffer_len] ++ t.trace }

/-- What `statement_execute` returns: the Lua results, the statement, the
allocation counter, the calls made and the undefined points met.  When
`undefined` is not empty, C gives the execution no meaning from the first of
these points on, and the other fields show one way it can go on. -/
structure ExecResult where
  ret : List LuaRet
  statement : statement_t
  next : Nat
  trace : List Event
  undefined : List Undefined
  deriving DecidableEq, Repr

/-- A zeroed `resultset_t` (the `memset` of line 160). -/
def zero_descriptor : resultset_t := ⟨[], 0, 0, 0, 0⟩

/-- A zeroed `bindparams_t` (the `memset` of line 163). -/
def zero_slot : bindparams_t := ⟨none, 0, 0⟩

/-- The function `statement_execute` (lines 56-221) on the statement `s` and
the arguments `args` (stack positions 2 to n).  `realloc(buffer, 0)` is the
release of the scratch, as the comment of line 215 says; its result is
dropped.  The array `err` (line 83) belongs to the body of the parameter
loop; line 134 reads it through `errstr` after the loop has been left, so the
message argument is the content of an expired object.  `malloc` of the two
arrays is taken to succeed. -/
def statement_execute (N : ExecNative) (s : statement_t) (args : List LuaArg)
    (next : Nat) : ExecResult :=
  if s.stmt = 0 then
    ⟨[.boolean false, .string .DBI_ERR_EXECUTE_INVALID], s, next, [], []⟩
  else
    let b := bind_params N s.stmt args 1 none 0 next
    if b.errflag then
      match b.errstr with
      | some err =>
        ⟨[.boolean false, .fstring .DBI_ERR_BINDING_PARAMS (.expired err)], s, b.next,
          b.trace ++ [Event.realloc b.buffer 0 none],
          b.undefined ++ [.readExpired "err"]⟩
      | none =>
        ⟨[.boolean false, .fstring .DBI_ERR_BINDING_PARAMS (.text N.SQLGetDiagRec)], s,
          b.next, b.trace ++ [Event.realloc b.buffer 0 none, Event.SQLGetDiagRec s.stmt],
          b.undefined⟩
    else if N.SQLExecute ≠ SQL_SUCCESS then
      ⟨[.nil, .fstring .DBI_ERR_PREP_STATEMENT (.text N.SQLGetDiagRec)], s, b.next,
        b.trace ++ [Event.SQLExecute s.stmt, Event.SQLGetDiagRec s.stmt], b.undefined⟩
    else
      let s1 : statement_t := match N.SQLNumResultCols with
        | some n => { s with num_result_columns := n }
        | none => s
      let e := [Event.SQLExecute s.stmt, Event.SQLNumResultCols s.stmt]
      if s1.num_result_columns > 0 then
        let n := s1.num_result_columns.toNat
        let c := describe_columns N s.stmt n 0 (List.replicate n zero_descriptor)
          (List.replicate n zero_slot) (b.next + 2)
        let a := [Event.malloc b.next (.descriptors s1.num_result_columns),
          Event.malloc (b.next + 1) (.bindslots s1.num_result_columns)]
        match c.failed with
        | some format =>
          ⟨[.nil, .fstring format (.text N.SQLGetDiagRec)], s1, c.next,
            b.trace ++ e ++ a ++ c.trace, b.undefined⟩
        | none =>
          ⟨[.boolean true],
            { s1 with resultset := some (b.next, c.rs), bind := some (b.next + 1, c.bs) },
            c.next, b.trace ++ e ++ a ++ c.trace ++ [Event.realloc b.buffer 0 none],
            b.undefined⟩
      else
        ⟨[.boolean true], s1, b.next, b.trace ++ e ++ [Event.realloc b.buffer 0 none],
          b.undefined⟩

/-! ## Fetch -/

/-- The key of one entry of a fetched row. -/
inductive RowKey
  | index (d : Int)
  | name (s : List Char)
  deriving DecidableEq, Repr

/-- The value of one entry of a fetched row; `atoi` and `strtod` of the C
library are kept as the text they are applied to. -/
inductive HostValue
  | nil
  | integer (atoi_of : List Char)
  | number (strtod_of : List Char)
  | boolean (atoi_of : List Char)
  | string (s : List Char)
  deriving DecidableEq, Repr

/-- The Lua API read `lua_rawget` on a table held as its list of keys with
their values: the value under the key, `nil` when the table has no such
key. -/
def lua_rawget : List (RowKey × HostValue) → RowKey → HostValue
  | [], _ => .nil
  | e :: t, k => if e.1 = k then e.2 else lua_rawget t k

/-- The table without the key `k`. -/
def remove_key : List (RowKey × HostValue) → RowKey → List (RowKey × HostValue)
  | [], _ => []
  | e :: t, k => if e.1 = k then remove_key t k else e :: remove_key t k

/-- The Lua API store `lua_rawset` (and `lua_rawseti`): the key gets the new
value in place of any earlier one, and storing `nil` leaves the table without
the key. -/
def lua_rawset (t : List (RowKey × HostValue)) (k : RowKey) (v : HostValue) :
    List (RowKey × HostValue) :=
  if v = .nil then remove_key t k else remove_key t k ++ [(k, v)]

/-- What `statement_fetch_impl` does: push `nil`, push a row (the table built,
as its keys with their values), raise the fatal error of `luaL_error`, or
read past the end of an array. -/
inductive FetchRet
  | nil
  | row (table : List (RowKey × HostValue))
  | fatal (e : DbiErr)
  | outOfBounds
  deriving DecidableEq, Repr

/-- The keys of the row pushed, none when no row is pushed. -/
def FetchRet.keys : FetchRet → List RowKey
  | .row t => t.map Prod.fst
  | _ => []

/-- The answers of the native layer during one fetch: the return code of
`SQLFetch` and, for the bind slot of index `i`, the length indicator and the
buffer text found there after the call. -/
structure FetchNative where
  SQLFetch : Int
  column : Nat → Int × List Char

/-- Modelled from the spec: `strlower` of the missing `dbd/common.c`, the
lower-casing of a column name. -/
def strlower (name : List Char) : List Char := name.map Char.toLower

/-- Modelled from the spec: the `LUA_PUSH_ARRAY_*` forms of the missing
`dbd/common.h`: the value is stored under the index `d` of the row, and `d`
moves on to the next index (1-based sequential keys). -/
def LUA_PUSH_ARRAY (t : List (RowKey × HostValue)) (d : Int) (v : HostValue) :
    List (RowKey × HostValue) × Int :=
  (lua_rawset t (.index d) v, d + 1)

/-- Modelled from the spec: the `LUA_PUSH_ATTRIB_*` forms of the missing
`dbd/common.h`: the value is stored under the column name. -/
def LUA_PUSH_ATTRIB (t : List (RowKey × HostValue)) (name : List Char) (v : HostValue) :
    List (RowKey × HostValue) :=
  lua_rawset t (.name name) v

/-- Conversion of an integer to `unsigned int`. -/
def to_unsigned (x : Int) : Nat := (x % 4294967296).toNat

/-- The switch of `statement_fetch_impl` (lines 252-292) on the value kind:
the value to push, or `none` in the `default` branch. -/
def push_value (k : lua_push_type_t) (value : List Char) : Option HostValue :=
  match k with
  | .LUA_PUSH_NIL => some .nil
  | .LUA_PUSH_INTEGER => some (.integer value)
  | .LUA_PUSH_NUMBER => some (.number value)
  | .LUA_PUSH_BOOLEAN => some (.boolean value)
  | .LUA_PUSH_STRING => some (.string value)
  | .unknown _ => none

/-- The bind slots after the native fetch has written the length fields. -/
def fetched_slots (col : Nat → Int × List Char) : Nat → List bindparams_t → List bindparams_t
  | _, [] => []
  | i, b :: bs => { b with len := (col i).1 } :: fetched_slots col (i + 1) bs

/-- The column loop of `statement_fetch_impl` (lines 246-293), `k` columns
from index `i` on, with `d` the next array index and `t` the table built so
far.  The descriptor array is returned too, since `strlower` lower-cases the
name in place. -/
def fetch_columns (named : Bool) (F : FetchNative) (bs : List bindparams_t) :
    Nat → Nat → Int → List resultset_t → List (RowKey × HostValue) →
      FetchRet × List resultset_t
  | 0, _, _, rs, t => (.row t, rs)
  | k + 1, i, d, rs, t =>
    match rs[i]?, bs[i]? with
    | some r, some b =>
      let lua_push := db2_to_lua_push (to_unsigned r.type) b.len
      let name := strlower r.name
      let rs1 := rs.set i { r with name := name }
      match push_value lua_push (F.column i).2 with
      | none => (.fatal .DBI_ERR_UNKNOWN_PUSH, rs1)
      | some v =>
        let step := if named then (LUA_PUSH_ATTRIB t name v, d) else LUA_PUSH_ARRAY t d v
        fetch_columns named F bs k (i + 1) step.2 rs1 step.1
    | _, _ => (.outOfBounds, rs)

/-- The function `statement_fetch_impl` (lines 226-296); the row starts as the
empty table of `lua_newtable`. -/
def statement_fetch_impl (F : FetchNative) (s : statement_t) (named_columns : Bool) :
    FetchRet × statement_t × List Event :=
  match s.resultset, s.bind with
  | some (p, rs), some (q, bs) =>
    let bs1 := fetched_slots F.column 0 bs
    if F.SQLFetch = SQL_NO_DATA_FOUND then
      (.nil, { s with bind := some (q, bs1) }, [Event.SQLFetch s.stmt])
    else
      let r := fetch_columns named_columns F bs1 s.num_result_columns.toNat 0 1 rs []
      (r.1, { s with resultset := some (p, r.2), bind := some (q, bs1) },
        [Event.SQLFetch s.stmt])
  | _, _ => (.nil, s, [])

/-- The function `statement_fetch` (lines 309-314). -/
def statement_fetch (F : FetchNative) (s : statement_t) (named_columns : Bool) :
    FetchRet × statement_t × List Event :=
  statement_fetch_impl F s named_columns

/-- The conversion rule of the specification for one column: a fetched length
equal to the null sentinel gives the null value whatever the native type;
otherwise a small or standard integer type gives the text parsed as an
integer, a decimal type the text parsed as a floating-point number, and every
other type the raw text. -/
def reference_value (native_type : Int) (len : Int) (text : List Char) : HostValue :=
  if len = SQL_NULL_DATA then .nil
  else if native_type = SQL_DECIMAL then .number text
  else if native_type = SQL_INTEGER then .integer text
  else if native_type = SQL_SMALLINT then .integer text
  else .string text

/-- The native type code of column `i` of a descriptor array. -/
def column_type (rs : List resultset_t) (i : Nat) : Int :=
  ((rs[i]?).getD zero_descriptor).type

/-- The lower-cased name of column `i` of a descriptor array. -/
def column_name (rs : List resultset_t) (i : Nat) : List Char :=
  strlower ((rs[i]?).getD zero_descriptor).name

/-- The value the conversion rule of the specification gives column `i` after
the fetch `F`. -/
def column_reference (F : FetchNative) (rs : List resultset_t) (i : Nat) : HostValue :=
  reference_value (column_type rs i) (F.column i).1 (F.column i).2

/-- The table after the stores `es`, made in order, into the table `t`. -/
def store_all (es : List (RowKey × HostValue)) (t : List (RowKey × HostValue)) :
    List (RowKey × HostValue) :=
  es.foldl (fun acc e => lua_rawset acc e.1 e.2) t

/-- The value of the last of the stores `es` made under the key `k`, if one
was made. -/
def last_write : List (RowKey × HostValue) → RowKey → Option HostValue
  | [], _ => none
  | e :: es, k =>
    match last_write es k with
    | some v => some v
    | none => if e.1 = k then some e.2 else none

/-! ## Create -/

/-- The answers of the native layer during `dbd_db2_statement_create`. -/
structure CreateNative where
  SQLAllocHandle : Int × Nat
  SQLPrepare : Int
  SQLGetDiagRec : String

/-- The function `dbd_db2_statement_create` (lines 342-388): the results
pushed on failure, or the new statement.  `lua_newuserdata` does not clear the
block, so the column count starts as whatever `uninit` the memory held. -/
def dbd_db2_statement_create (N : CreateNative) (conn_db2 : Nat) (uninit : Int) :
    Except (List LuaRet) statement_t :=
  if N.SQLAllocHandle.1 ≠ SQL_SUCCESS then
    .error [.nil, .fstring .DBI_ERR_ALLOC_STATEMENT (.text N.SQLGetDiagRec)]
  else if N.SQLPrepare ≠ SQL_SUCCESS then
    .error [.nil, .fstring .DBI_ERR_PREP_STATEMENT (.text N.SQLGetDiagRec)]
  else
    .ok { resultset := none, bind := none, num_result_columns := uninit,
          stmt := N.SQLAllocHandle.2, db2 := conn_db2 }


/-! ## Predicates on statements and on call lists -/

/-- The invariant of the data model: `resultset` and `bind` are both null, or
both non-null and of the length `num_result_columns`. -/
def arrays_consistent (s : statement_t) : Bool :=
  match s.resultset, s.bind with
  | none, none => true
  | some (_, rs), some (_, bs) =>
    decide ((rs.length : Int) = s.num_result_columns) &&
      decide ((bs.length : Int) = s.num_result_columns)
  | _, _ => false

/-- The blocks that are allocated and not released after the calls `es`,
starting from the live blocks `live`. -/
def live_after : List Event → List Nat → List Nat
  | [], live => live
  | .malloc p _ :: es, live => live_after es (p :: live)
  | .free (some p) :: es, live => live_after es (live.erase p)
  | .realloc old size result :: es, live =>
    let kept := match old with
      | some p => live.erase p
      | none => live
    let grown := match result with
      | some r => if size = 0 then kept else r :: kept
      | none => kept
    live_after es grown
  | _ :: es, live => live_after es live

/-- Whether every store into the scratch lies inside the block as it was last
sized by `realloc`; `size` is the size of the block so far. -/
def stores_in_bounds : List Event → Nat → Bool
  | [], _ => true
  | .realloc _ n _ :: es, _ => stores_in_bounds es n
  | .store _ off w :: es, size => decide (off + w ≤ size) && stores_in_bounds es size
  | _ :: es, size => stores_in_bounds es size

/-! ## Sample statements and native layers -/

/-- A statement as `dbd_db2_statement_create` leaves it: handle 7 on
connection 3, no arrays. -/
def prepared_statement : statement_t :=
  { resultset := none, bind := none, num_result_columns := 0, stmt := 7, db2 := 3 }

/-- The descriptor the sample native layers report for every column: an
integer column `ID` of declared size 10. -/
def id_column : resultset_t :=
  { name := ['I', 'D'], name_len := 2, type := SQL_INTEGER, size := 10, scale := 0 }

/-- A native layer on which every call succeeds; the command has one result
column. -/
def native_one_column : ExecNative :=
  { SQLBindParameter := fun _ => SQL_SUCCESS
    SQLExecute := SQL_SUCCESS
    SQLNumResultCols := some 1
    SQLDescribeCol := fun _ => (SQL_SUCCESS, id_column)
    SQLBindCol := fun _ => SQL_SUCCESS
    SQLGetDiagRec := "" }

/-- A native layer on which the binds succeed and `SQLExecute` reports an
error. -/
def native_execute_error : ExecNative :=
  { native_one_column with SQLExecute := SQL_ERROR, SQLGetDiagRec := "SQL0100W" }

/-- A native layer for a command with two result columns on which
`SQLDescribeCol` reports an error for the second column. -/
def native_describe_error : ExecNative :=
  { native_one_column with
    SQLNumResultCols := some 2
    SQLDescribeCol := fun col =>
      if col = 2 then (SQL_ERROR, zero_descriptor) else (SQL_SUCCESS, id_column)
    SQLGetDiagRec := "CLI0100E" }

/-- The statement after a successful execute, without parameters, of a
command with one result column. -/
def executed_statement : statement_t :=
  (statement_execute native_one_column prepared_statement [] 100).statement

/-- A native layer on which `SQLExecute` succeeds with a warning: it answers
`SQL_SUCCESS_WITH_INFO`. -/
def native_execute_with_info : ExecNative :=
  { native_one_column with SQLExecute := SQL_SUCCESS_WITH_INFO, SQLGetDiagRec := "01000" }

/-- A native layer on which every parameter bind succeeds with a warning
(`SQL_SUCCESS_WITH_INFO`); the command has no result column. -/
def native_bind_with_info : ExecNative :=
  { native_one_column with
    SQLBindParameter := fun _ => SQL_SUCCESS_WITH_INFO
    SQLNumResultCols := some 0 }

/-- A native layer on which `SQLDescribeCol` succeeds with a warning
(`SQL_SUCCESS_WITH_INFO`, as for a column name cut to the buffer). -/
def native_describe_with_info : ExecNative :=
  { native_one_column with
    SQLDescribeCol := fun _ => (SQL_SUCCESS_WITH_INFO, id_column)
    SQLGetDiagRec := "01004" }

/-- A text column `NAME` of declared size 20. -/
def name_column : resultset_t :=
  { name := ['N', 'A', 'M', 'E'], name_len := 4, type := SQL_VARCHAR, size := 20, scale := 0 }

/-- A decimal column `PRICE` of declared size 12 and scale 2. -/
def price_column : resultset_t :=
  { name := ['P', 'R', 'I', 'C', 'E'], name_len := 5, type := SQL_DECIMAL, size := 12,
    scale := 2 }

/-- A native layer on which every call succeeds; the command has the three
result columns `ID`, `NAME` and `PRICE`. -/
def native_three_columns : ExecNative :=
  { native_one_column with
    SQLNumResultCols := some 3
    SQLDescribeCol := fun col =>
      if col = 1 then (SQL_SUCCESS, id_column)
      else if col = 2 then (SQL_SUCCESS, name_column)
      else (SQL_SUCCESS, price_column) }

/-- The statement after a successful execute, without parameters, of the
command with the three result columns. -/
def three_column_statement : statement_t :=
  (statement_execute native_three_columns prepared_statement [] 100).statement

/-- The descriptor array of `three_column_statement`. -/
def three_descriptors : List resultset_t := [id_column, name_column, price_column]

/-- The bind-slot array of `three_column_statement`. -/
def three_slots : List bindparams_t :=
  [⟨some 102, 11, 0⟩, ⟨some 103, 21, 0⟩, ⟨some 104, 13, 0⟩]

/-- A native fetch that delivers the row `42`, `bob`, `9.5`. -/
def native_full_row : FetchNative :=
  { SQLFetch := SQL_SUCCESS
    column := fun i =>
      if i = 0 then (2, ['4', '2'])
      else if i = 1 then (3, ['b', 'o', 'b'])
      else (3, ['9', '.', '5']) }

/-- A native fetch that delivers the row `42`, `bob` and a null price. -/
def native_null_row : FetchNative :=
  { SQLFetch := SQL_SUCCESS
    column := fun i =>
      if i = 0 then (2, ['4', '2'])
      else if i = 1 then (3, ['b', 'o', 'b'])
      else (SQL_NULL_DATA, []) }

/-! ## Type conversion: lemmas -/

theorem db2_to_lua_push_cases (t : Nat) (len : Int) :
    db2_to_lua_push t len = .LUA_PUSH_NIL ∨ db2_to_lua_push t len = .LUA_PUSH_INTEGER ∨
    db2_to_lua_push t len = .LUA_PUSH_NUMBER ∨ db2_to_lua_push t len = .LUA_PUSH_STRING := by
  unfold db2_to_lua_push
  split
  · exact Or.inl rfl
  · split
    · exact Or.inr (Or.inl rfl)
    · split
      · exact Or.inr (Or.inr (Or.inl rfl))
      · exact Or.inr (Or.inr (Or.inr rfl))

theorem push_value_db2_isSome (t : Nat) (len : Int) (value : List Char) :
    ∃ v, push_value (db2_to_lua_push t len) value = some v := by
  rcases db2_to_lua_push_cases t len with h | h | h | h <;> rw [h] <;> exact ⟨_, rfl⟩

theorem fetch_columns_not_fatal (named : Bool) (F : FetchNative) (bs : List bindparams_t)
    (k : Nat) : ∀ (i : Nat) (d : Int) (rs : List resultset_t)
      (t : List (RowKey × HostValue)) (e : DbiErr),
    (fetch_columns named F bs k i d rs t).1 ≠ .fatal e := by
  induction k with
  | zero => intro i d rs t e; simp [fetch_columns]
  | succ k ih =>
    intro i d rs t e
    unfold fetch_columns
    split
    · rename_i r b _ _
      obtain ⟨v, hv⟩ := push_value_db2_isSome (to_unsigned r.type) b.len (F.column i).2
      simp only [hv]
      exact ih _ _ _ _ e
    · simp

/-! ## Claims settled by evaluating the code -/

/-- C1, at a failing input: after a successful execute of a one-column
command the statement is closed; a second `statement_close` (and equally
`statement_gc`) is not a no-op: it releases the handle 7 again and frees the
descriptor array (block 100) and the bind-slot array (block 101) again,
because the first close left `stmt`, `resultset` and `bind` as they were. -/
theorem statement_close_twice_releases_again :
    (statement_close executed_statement).2 =
      [Event.SQLFreeHandle 7, Event.free (some 100), Event.free (some 102),
       Event.free (some 101)] ∧
    (statement_close (statement_close executed_statement).1).2 =
      [Event.SQLFreeHandle 7, Event.free (some 100), Event.free (some 101)] ∧
    (statement_gc (statement_close executed_statement).1).2 =
      [Event.SQLFreeHandle 7, Event.free (some 100), Event.free (some 101)] ∧
    (statement_close executed_statement).1.stmt = 7 := by
  decide

/-- C2, at a failing input: `statement_execute` on a statement that
`statement_close` has closed is not rejected: it passes the handle test,
calls `SQLExecute` on the released handle 7 and returns `true`. -/
theorem statement_execute_after_close_not_rejected :
    (statement_execute native_one_column (statement_close prepared_statement).1 [] 100).ret =
      [LuaRet.boolean true] ∧
    Event.SQLExecute 7 ∈
      (statement_execute native_one_column (statement_close prepared_statement).1 [] 100).trace ∧
    (statement_close prepared_statement).2 = [Event.SQLFreeHandle 7] := by
  decide

/-- C3, at a failing input: the invariant holds after a successful execute of
a one-column command and fails after `statement_close`, which sets the column
count to 0 and leaves both array fields non-null with one element. -/
theorem statement_close_breaks_arrays_consistent :
    arrays_consistent executed_statement = true ∧
    arrays_consistent (statement_close executed_statement).1 = false ∧
    (statement_close executed_statement).1.num_result_columns = 0 ∧
    (statement_close executed_statement).1.resultset = some (100, [id_column]) := by
  decide

/-- C6, at a failing input: `execute(5)` on a native layer whose `SQLExecute`
reports an error returns `nil` and a message; the scratch (block 100) grown
for the number is still allocated when the call returns, no `realloc(buffer,
0)` having been made. -/
theorem statement_execute_error_leaks_scratch :
    (statement_execute native_execute_error prepared_statement [.number 5] 100).ret =
      [LuaRet.nil, LuaRet.fstring .DBI_ERR_PREP_STATEMENT (.text "SQL0100W")] ∧
    (statement_execute native_execute_error prepared_statement [.number 5] 100).trace =
      [Event.realloc none 8 (some 100), Event.store 100 0 8,
       Event.SQLBindParameter 7 ⟨1, SQL_C_DOUBLE, SQL_DECIMAL, 10, .scratch 100 0, 0, false⟩,
       Event.SQLExecute 7, Event.SQLGetDiagRec 7] ∧
    live_after
      (statement_execute native_execute_error prepared_statement [.number 5] 100).trace [] =
      [100] := by
  decide

/-- C7, at a failing input: an execute of a two-column command fails at the
description of column 2, after the descriptor array (block 100), the
bind-slot array (block 101) and the receive buffer of column 1 (block 102)
were allocated; the arrays are not stored in the statement, the following
`statement_close` releases the handle only, and the three blocks stay
allocated. -/
theorem statement_close_after_describe_error_frees_nothing :
    (statement_execute native_describe_error prepared_statement [] 100).ret =
      [LuaRet.nil, LuaRet.fstring .DBI_ERR_DESC_RESULT (.text "CLI0100E")] ∧
    (statement_execute native_describe_error prepared_statement [] 100).statement =
      { prepared_statement with num_result_columns := 2 } ∧
    (statement_close
      (statement_execute native_describe_error prepared_statement [] 100).statement).2 =
      [Event.SQLFreeHandle 7] ∧
    live_after
      ((statement_execute native_describe_error prepared_statement [] 100).trace ++
        (statement_close
          (statement_execute native_describe_error prepared_statement [] 100).statement).2)
      [] = [102, 101, 100] := by
  decide

/-- C10, at a failing input: `execute(5, 6)`.  The second number is stored at
byte 64 of the scratch (block 100), which `realloc` has grown to 16 bytes, and
that address is what is bound to parameter 2: the offset is counted in
doubles, not in bytes. -/
theorem statement_execute_second_number_out_of_bounds :
    (statement_execute native_one_column prepared_statement
      [.number 5, .number 6] 100).trace.take 6 =
      [Event.realloc none 8 (some 100), Event.store 100 0 8,
       Event.SQLBindParameter 7 ⟨1, SQL_C_DOUBLE, SQL_DECIMAL, 10, .scratch 100 0, 0, false⟩,
       Event.realloc (some 100) 16 (some 100), Event.store 100 64 8,
       Event.SQLBindParameter 7 ⟨2, SQL_C_DOUBLE, SQL_DECIMAL, 10, .scratch 100 64, 0, false⟩] ∧
    stores_in_bounds
      (statement_execute native_one_column prepared_statement
        [.number 5, .number 6] 100).trace 0 = false := by
  decide

/-! ## Claims proved of the code -/

/-- C8: `db2_to_lua_push` is a total function equal to the reference rule for
every type code and every fetched length (null for the null sentinel whatever
the type, else integer for `SQL_SMALLINT` and `SQL_INTEGER`, number for
`SQL_DECIMAL`, text otherwise); it never returns the boolean kind nor a value
outside the five kinds, and `statement_fetch_impl` never raises its
unknown-conversion fatal error. -/
theorem db2_to_lua_push_eq_reference :
    (∀ (t : Nat) (len : Int), db2_to_lua_push t len = push_kind_reference t len) ∧
    (∀ (t : Nat), db2_to_lua_push t SQL_NULL_DATA = .LUA_PUSH_NIL) ∧
    (∀ (t : Nat) (len : Int), db2_to_lua_push t len ≠ .LUA_PUSH_BOOLEAN) ∧
    (∀ (t : Nat) (len : Int) (code : Int), db2_to_lua_push t len ≠ .unknown code) ∧
    (∀ (F : FetchNative) (s : statement_t) (named : Bool) (e : DbiErr),
      (statement_fetch_impl F s named).1 ≠ .fatal e) := by
  refine ⟨?_, ?_, ?_, ?_, ?_⟩
  · intro t len
    unfold db2_to_lua_push push_kind_reference
    by_cases h1 : len = SQL_NULL_DATA
    · simp [h1]
    · by_cases h2 : (t : Int) = SQL_DECIMAL
      · simp [h1, h2, SQL_DECIMAL, SQL_SMALLINT, SQL_INTEGER]
      · by_cases h3 : (t : Int) = SQL_INTEGER
        · simp [h1, h3, SQL_DECIMAL, SQL_SMALLINT, SQL_INTEGER]
        · simp [h1, h2, h3]
  · intro t
    simp [db2_to_lua_push]
  · intro t len
    rcases db2_to_lua_push_cases t len with h | h | h | h <;> rw [h] <;> simp
  · intro t len code
    rcases db2_to_lua_push_cases t len with h | h | h | h <;> rw [h] <;> simp
  · intro F s named e
    unfold statement_fetch_impl
    split
    · split
      · simp
      · exact fetch_columns_not_fatal _ _ _ _ _ _ _ _ e
    · simp

/-! ## Further claims settled by evaluating the code -/

/-- C4, at a failing input: `execute({})`, a table being of an unsupported
kind.  The pass writes the unsupported-type text naming `table` into the
array `err` of the loop body, and the loop is left; nothing is bound, nothing
executed and the statement is unchanged, but the message pushed with `false`
is read from `err` after the end of its block, so it is the content of an
expired object and not guaranteed to name the kind.  For `execute(5, 6, {})`
the out-of-bounds store of the second number comes before it. -/
theorem statement_execute_unsupported_reads_expired_err :
    (bind_one native_one_column 7 .table 1 none 0 100).errstr =
      some (.snprintf 63 .DBI_ERR_BINDING_TYPE_ERR "table") ∧
    (statement_execute native_one_column prepared_statement [.table] 100).ret =
      [.boolean false,
       .fstring .DBI_ERR_BINDING_PARAMS
         (.expired (.snprintf 63 .DBI_ERR_BINDING_TYPE_ERR "table"))] ∧
    (statement_execute native_one_column prepared_statement [.table] 100).undefined =
      [.readExpired "err"] ∧
    (statement_execute native_one_column prepared_statement [.table] 100).trace =
      [Event.realloc none 0 none] ∧
    (statement_execute native_one_column prepared_statement [.table] 100).statement =
      prepared_statement ∧
    (statement_execute native_one_column prepared_statement
      [.number 5, .number 6, .table] 100).undefined =
      [.storeOutOfBounds 100 64 8 16, .readExpired "err"] := by
  decide

/-- C5, at a failing input: `execute()` on a native layer whose `SQLExecute`
succeeds with a warning (`SQL_SUCCESS_WITH_INFO`).  No call has failed, yet
the result is `nil` and a message, and the result columns are not described;
likewise when `SQLDescribeCol` answers `SQL_SUCCESS_WITH_INFO`.  The test on
a parameter bind accepts that code: `execute(nil)` with binds answering
`SQL_SUCCESS_WITH_INFO` returns `true`. -/
theorem statement_execute_success_with_info_returns_nil :
    native_execute_with_info.SQLExecute = SQL_SUCCESS_WITH_INFO ∧
    (statement_execute native_execute_with_info prepared_statement [] 100).ret =
      [.nil, .fstring .DBI_ERR_PREP_STATEMENT (.text "01000")] ∧
    (statement_execute native_execute_with_info prepared_statement [] 100).trace =
      [Event.SQLExecute 7, Event.SQLGetDiagRec 7] ∧
    (native_describe_with_info.SQLDescribeCol 1).1 = SQL_SUCCESS_WITH_INFO ∧
    (statement_execute native_describe_with_info prepared_statement [] 100).ret =
      [.nil, .fstring .DBI_ERR_DESC_RESULT (.text "01004")] ∧
    (statement_execute native_bind_with_info prepared_statement [.nil] 100).ret =
      [.boolean true] ∧
    bind_failed SQL_SUCCESS_WITH_INFO = false ∧
    bind_failed SQL_ERROR = true := by
  decide

/-- C9 as stated fails: on the statement with the three columns `ID`, `NAME`
and `PRICE`, a fetch that delivers a row with a null price returns, with
`named = false`, a table whose keys are 1 and 2 only, not 1..3, and, with
`named = true`, a table without the key `price`. -/
theorem statement_fetch_impl_null_column_has_no_key :
    three_column_statement.num_result_columns = 3 ∧
    three_column_statement.resultset = some (100, three_descriptors) ∧
    (statement_fetch_impl native_null_row three_column_statement false).1 =
      .row [(.index 1, .integer ['4', '2']), (.index 2, .string ['b', 'o', 'b'])] ∧
    (statement_fetch_impl native_null_row three_column_statement false).1.keys =
      [.index 1, .index 2] ∧
    RowKey.index 3 ∉
      (statement_fetch_impl native_null_row three_column_statement false).1.keys ∧
    (statement_fetch_impl native_null_row three_column_statement true).1.keys =
      [.name ['i', 'd'], .name ['n', 'a', 'm', 'e']] := by
  decide

/-! ## Lua tables: lemmas -/

theorem not_mem_keys_remove_key (t : List (RowKey × HostValue)) (k : RowKey) :
    k ∉ (remove_key t k).map Prod.fst := by
  induction t with
  | nil => simp [remove_key]
  | cons e t ih =>
    unfold remove_key
    split
    · exact ih
    · rename_i h
      simp only [List.map_cons, List.mem_cons, not_or]
      exact ⟨fun hk => h hk.symm, ih⟩

theorem mem_of_mem_remove_key (t : List (RowKey × HostValue)) (k : RowKey)
    (e : RowKey × HostValue) (he : e ∈ remove_key t k) : e ∈ t := by
  induction t with
  | nil => simp [remove_key] at he
  | cons a t ih =>
    unfold remove_key at he
    split at he
    · exact List.mem_cons_of_mem _ (ih he)
    · rcases List.mem_cons.1 he with h | h
      · rw [h]; exact List.mem_cons_self _ _
      · exact List.mem_cons_of_mem _ (ih h)

theorem lua_rawget_remove_key_ne (t : List (RowKey × HostValue)) (k k1 : RowKey)
    (h : k1 ≠ k) : lua_rawget (remove_key t k) k1 = lua_rawget t k1 := by
  induction t with
  | nil => rfl
  | cons e t ih =>
    unfold remove_key
    split
    · rename_i he
      have hne : e.1 ≠ k1 := by rw [he]; exact fun x => h x.symm
      simp [lua_rawget, hne, ih]
    · simp [lua_rawget, ih]

theorem lua_rawget_of_not_mem (t : List (RowKey × HostValue)) (k : RowKey)
    (h : k ∉ t.map Prod.fst) : lua_rawget t k = .nil := by
  induction t with
  | nil => rfl
  | cons e t ih =>
    simp only [List.map_cons, List.mem_cons, not_or] at h
    have hne : e.1 ≠ k := fun x => h.1 x.symm
    simp [lua_rawget, hne, ih h.2]

theorem lua_rawget_append_of_not_mem (t u : List (RowKey × HostValue)) (k : RowKey)
    (h : k ∉ t.map Prod.fst) : lua_rawget (t ++ u) k = lua_rawget u k := by
  induction t with
  | nil => rfl
  | cons e t ih =>
    simp only [List.map_cons, List.mem_cons, not_or] at h
    have hne : e.1 ≠ k := fun x => h.1 x.symm
    simp [lua_rawget, hne, ih h.2]

theorem lua_rawget_append_of_mem (t u : List (RowKey × HostValue)) (k : RowKey)
    (h : k ∈ t.map Prod.fst) : lua_rawget (t ++ u) k = lua_rawget t k := by
  induction t with
  | nil => simp at h
  | cons e t ih =>
    by_cases he : e.1 = k
    · simp [lua_rawget, he]
    · simp only [List.map_cons, List.mem_cons] at h
      rcases h with h | h
      · exact absurd h.symm he
      · simp [lua_rawget, he, ih h]

theorem lua_rawget_rawset_self (t : List (RowKey × HostValue)) (k : RowKey) (v : HostValue) :
    lua_rawget (lua_rawset t k v) k = v := by
  unfold lua_rawset
  split
  · rename_i hv
    rw [hv]
    exact lua_rawget_of_not_mem _ _ (not_mem_keys_remove_key t k)
  · rw [lua_rawget_append_of_not_mem _ _ _ (not_mem_keys_remove_key t k)]
    simp [lua_rawget]

theorem lua_rawget_rawset_ne (t : List (RowKey × HostValue)) (k k1 : RowKey) (v : HostValue)
    (h : k1 ≠ k) : lua_rawget (lua_rawset t k v) k1 = lua_rawget t k1 := by
  unfold lua_rawset
  split
  · exact lua_rawget_remove_key_ne t k k1 h
  · by_cases hm : k1 ∈ (remove_key t k).map Prod.fst
    · rw [lua_rawget_append_of_mem _ _ _ hm]
      exact lua_rawget_remove_key_ne t k k1 h
    · rw [lua_rawget_append_of_not_mem _ _ _ hm]
      have hne : k ≠ k1 := fun x => h x.symm
      rw [← lua_rawget_remove_key_ne t k k1 h, lua_rawget_of_not_mem _ _ hm]
      simp [lua_rawget, hne]

theorem lua_rawset_no_nil (t : List (RowKey × HostValue)) (k : RowKey) (v : HostValue)
    (ht : ∀ e ∈ t, e.2 ≠ HostValue.nil) : ∀ e ∈ lua_rawset t k v, e.2 ≠ HostValue.nil := by
  intro e he
  unfold lua_rawset at he
  split at he
  · exact ht e (mem_of_mem_remove_key t k e he)
  · rename_i hv
    rcases List.mem_append.1 he with h | h
    · exact ht e (mem_of_mem_remove_key t k e h)
    · simp only [List.mem_singleton] at h
      rw [h]
      exact hv

theorem store_all_no_nil (es : List (RowKey × HostValue)) :
    ∀ (t : List (RowKey × HostValue)), (∀ e ∈ t, e.2 ≠ HostValue.nil) →
      ∀ e ∈ store_all es t, e.2 ≠ HostValue.nil := by
  induction es with
  | nil => intro t ht; simpa [store_all] using ht
  | cons a es ih =>
    intro t ht
    have := ih (lua_rawset t a.1 a.2) (lua_rawset_no_nil t a.1 a.2 ht)
    simpa [store_all] using this

theorem mem_keys_iff_rawget (t : List (RowKey × HostValue))
    (ht : ∀ e ∈ t, e.2 ≠ HostValue.nil) (k : RowKey) :
    k ∈ t.map Prod.fst ↔ lua_rawget t k ≠ .nil := by
  induction t with
  | nil => simp [lua_rawget]
  | cons e t ih =>
    have ih1 := ih (fun a ha => ht a (List.mem_cons_of_mem _ ha))
    by_cases he : e.1 = k
    · simp only [List.map_cons, List.mem_cons, lua_rawget, he, if_true, true_or, true_iff,
        eq_comm]
      exact ht e (List.mem_cons_self _ _)
    · have hne : k ≠ e.1 := fun x => he x.symm
      simp only [List.map_cons, List.mem_cons, lua_rawget, he, if_false, hne, false_or]
      exact ih1

theorem last_write_cons (e : RowKey × HostValue) (es : List (RowKey × HostValue))
    (k : RowKey) :
    last_write (e :: es) k =
      (match last_write es k with
        | some v => some v
        | none => if e.1 = k then some e.2 else none) := rfl

theorem lua_rawget_store_all (es : List (RowKey × HostValue)) (k : RowKey) :
    ∀ (t : List (RowKey × HostValue)),
      lua_rawget (store_all es t) k = (last_write es k).getD (lua_rawget t k) := by
  induction es with
  | nil => intro t; rfl
  | cons a es ih =>
    intro t
    have h1 : store_all (a :: es) t = store_all es (lua_rawset t a.1 a.2) := rfl
    rw [h1, ih, last_write_cons]
    cases hl : last_write es k with
    | some v => rfl
    | none =>
      by_cases ha : a.1 = k
      · simp only [ha, if_true, Option.getD_some, Option.getD_none]
        rw [← ha]
        exact lua_rawget_rawset_self t a.1 a.2
      · simp only [ha, if_false, Option.getD_none]
        exact lua_rawget_rawset_ne t a.1 k a.2 (fun x => ha x.symm)

theorem last_write_append_singleton (es : List (RowKey × HostValue))
    (a : RowKey × HostValue) (k : RowKey) :
    last_write (es ++ [a]) k = if a.1 = k then some a.2 else last_write es k := by
  induction es with
  | nil => simp [last_write]
  | cons e es ih =>
    rw [List.cons_append, last_write_cons, last_write_cons, ih]
    by_cases ha : a.1 = k
    · simp [ha]
    · simp [ha]

theorem last_write_mem (es : List (RowKey × HostValue)) (k : RowKey) (v : HostValue)
    (h : last_write es k = some v) : (k, v) ∈ es := by
  induction es with
  | nil => simp [last_write] at h
  | cons e es ih =>
    rw [last_write_cons] at h
    cases hl : last_write es k with
    | some w =>
      rw [hl] at h
      simp only [Option.some.injEq] at h
      subst h
      exact List.mem_cons_of_mem _ (ih hl)
    | none =>
      rw [hl] at h
      by_cases he : e.1 = k
      · simp only [he, if_true, Option.some.injEq] at h
        have : e = (k, v) := by rw [← he, ← h]
        rw [this]
        exact List.mem_cons_self _ _
      · simp [he] at h

theorem last_write_map_range (g : Nat → RowKey × HostValue) (n : Nat) :
    ∀ (i : Nat), i < n → (∀ j, i < j → j < n → (g j).1 ≠ (g i).1) →
      last_write ((List.range n).map g) (g i).1 = some (g i).2 := by
  induction n with
  | zero => intro i hi; omega
  | succ n ih =>
    intro i hi hlast
    rw [List.range_succ, List.map_append, List.map_singleton, last_write_append_singleton]
    by_cases hin : i = n
    · rw [hin]; simp
    · have hlt : i < n := by omega
      rw [if_neg (hlast n hlt (by omega))]
      exact ih i hlt (fun j h1 h2 => hlast j h1 (by omega))

/-! ## Fetch: lemmas -/

theorem fetched_slots_getElem (col : Nat → Int × List Char) (bs : List bindparams_t) :
    ∀ (i0 j : Nat), j < bs.length →
      ∃ b, (fetched_slots col i0 bs)[j]? = some b ∧ b.len = (col (i0 + j)).1 := by
  induction bs with
  | nil => intro i0 j hj; simp at hj
  | cons b bs ih =>
    intro i0 j hj
    cases j with
    | zero => exact ⟨{ b with len := (col i0).1 }, by simp [fetched_slots], rfl⟩
    | succ j =>
      obtain ⟨b1, h1, h2⟩ := ih (i0 + 1) j (by simpa using hj)
      refine ⟨b1, by simpa [fetched_slots] using h1, ?_⟩
      rw [h2]
      congr 2
      omega

theorem column_type_set_name (rs : List resultset_t) (i : Nat)
    (r : resultset_t) (hr : rs[i]? = some r) (name : List Char) (j : Nat) :
    column_type (rs.set i { r with name := name }) j = column_type rs j := by
  unfold column_type
  by_cases hij : i = j
  · subst hij
    have hlt : i < rs.length := by
      by_contra hc
      rw [List.getElem?_eq_none (by omega)] at hr
      exact absurd hr (by simp)
    simp [List.getElem?_set, hlt, hr]
  · simp [List.getElem?_set, hij]

theorem column_reference_set_name (F : FetchNative) (rs : List resultset_t) (i : Nat)
    (r : resultset_t) (hr : rs[i]? = some r) (name : List Char) (j : Nat) :
    column_reference F (rs.set i { r with name := name }) j = column_reference F rs j := by
  unfold column_reference
  rw [column_type_set_name rs i r hr name j]

theorem column_name_set_name (rs : List resultset_t) (i : Nat)
    (r : resultset_t) (name : List Char) (j : Nat) (hij : i ≠ j) :
    column_name (rs.set i { r with name := name }) j = column_name rs j := by
  unfold column_name
  simp [List.getElem?_set, hij]

theorem to_unsigned_eq_iff (t c : Int) (ht : -32768 ≤ t ∧ t ≤ 32767)
    (hc : 0 ≤ c ∧ c ≤ 32767) : ((to_unsigned t : Nat) : Int) = c ↔ t = c := by
  unfold to_unsigned
  constructor <;> intro h <;> omega

theorem push_value_eq_reference (t : Int) (ht : -32768 ≤ t ∧ t ≤ 32767) (len : Int)
    (text : List Char) :
    push_value (db2_to_lua_push (to_unsigned t) len) text =
      some (reference_value t len text) := by
  have h5 := to_unsigned_eq_iff t SQL_SMALLINT ht (by decide)
  have h4 := to_unsigned_eq_iff t SQL_INTEGER ht (by decide)
  have h3 := to_unsigned_eq_iff t SQL_DECIMAL ht (by decide)
  unfold db2_to_lua_push reference_value
  simp only [h5, h4, h3]
  by_cases h1 : len = SQL_NULL_DATA
  · simp [h1, push_value]
  · by_cases hd : t = SQL_DECIMAL
    · simp [h1, hd, push_value, SQL_DECIMAL, SQL_SMALLINT, SQL_INTEGER]
    · by_cases hi : t = SQL_INTEGER
      · simp [h1, hi, push_value, SQL_DECIMAL, SQL_SMALLINT, SQL_INTEGER]
      · by_cases hs : t = SQL_SMALLINT
        · simp [h1, hs, push_value, SQL_DECIMAL, SQL_SMALLINT, SQL_INTEGER]
        · simp [h1, hd, hi, hs, push_value]

theorem store_all_cons (e : RowKey × HostValue) (es t : List (RowKey × HostValue)) :
    store_all (e :: es) t = store_all es (lua_rawset t e.1 e.2) := rfl

theorem store_all_map_range (g : Nat → RowKey × HostValue) (n : Nat) :
    (∀ k, k ∈ (store_all ((List.range n).map g) []).map Prod.fst → ∃ i, i < n ∧ k = (g i).1) ∧
    (∀ i, i < n → (∀ j, i < j → j < n → (g j).1 ≠ (g i).1) →
      lua_rawget (store_all ((List.range n).map g) []) (g i).1 = (g i).2 ∧
      ((g i).1 ∈ (store_all ((List.range n).map g) []).map Prod.fst ↔
        (g i).2 ≠ HostValue.nil)) := by
  have hnn := store_all_no_nil ((List.range n).map g) [] (by simp)
  have hget : ∀ k, lua_rawget (store_all ((List.range n).map g) []) k =
      (last_write ((List.range n).map g) k).getD .nil := by
    intro k
    rw [lua_rawget_store_all]
    rfl
  constructor
  · intro k hk
    rw [mem_keys_iff_rawget _ hnn k, hget k] at hk
    cases hl : last_write ((List.range n).map g) k with
    | none => rw [hl] at hk; exact absurd rfl hk
    | some v =>
      have hmem := last_write_mem _ k v hl
      obtain ⟨i, hi, hgi⟩ := List.mem_map.1 hmem
      exact ⟨i, List.mem_range.1 hi, by rw [hgi]⟩
  · intro i hi hlast
    have hval : lua_rawget (store_all ((List.range n).map g) []) (g i).1 = (g i).2 := by
      rw [hget, last_write_map_range g n i hi hlast]
      rfl
    refine ⟨hval, ?_⟩
    rw [mem_keys_iff_rawget _ hnn, hval]

theorem fetch_columns_unnamed (F : FetchNative) (bs : List bindparams_t) (k : Nat) :
    ∀ (i : Nat) (d : Int) (rs : List resultset_t) (t : List (RowKey × HostValue)),
      i + k = rs.length →
      (∀ j, j < rs.length → ∃ b, bs[j]? = some b ∧ b.len = (F.column j).1) →
      (∀ j, j < rs.length → -32768 ≤ column_type rs j ∧ column_type rs j ≤ 32767) →
      (fetch_columns false F bs k i d rs t).1 =
        .row (store_all ((List.range k).map
          (fun (j : Nat) => (RowKey.index (d + (j : Int)), column_reference F rs (i + j)))) t) := by
  induction k with
  | zero => intro i d rs t _ _ _; simp [fetch_columns, store_all]
  | succ k ih =>
    intro i d rs t hlen hbs htypes
    have hi : i < rs.length := by omega
    obtain ⟨b, hb, hblen⟩ := hbs i hi
    have hr : rs[i]? = some rs[i] := List.getElem?_eq_getElem hi
    have htype : column_type rs i = rs[i].type := by simp [column_type, hr]
    have hpush : push_value (db2_to_lua_push (to_unsigned rs[i].type) b.len) (F.column i).2 =
        some (column_reference F rs i) := by
      rw [hblen]
      unfold column_reference
      rw [htype]
      exact push_value_eq_reference _ (by rw [← htype]; exact htypes i hi) _ _
    have hrec := ih (i + 1) (d + 1) (rs.set i { rs[i] with name := strlower rs[i].name })
      (lua_rawset t (.index d) (column_reference F rs i))
      (by simp; omega) (by simpa using hbs)
      (by
        intro j hj
        rw [column_type_set_name rs i rs[i] hr]
        exact htypes j (by simpa using hj))
    unfold fetch_columns
    simp only [hr, hb, hpush, Bool.false_eq_true, if_false, LUA_PUSH_ARRAY]
    refine hrec.trans ?_
    congr 1
    rw [List.range_succ_eq_map, List.map_cons, List.map_map, store_all_cons]
    congr 1
    · apply List.map_congr_left
      intro j _
      simp only [Function.comp, column_reference_set_name F rs i rs[i] hr]
      congr 2
      · push_cast; ring
      · omega
    · simp

theorem fetch_columns_named (F : FetchNative) (bs : List bindparams_t) (k : Nat) :
    ∀ (i : Nat) (d : Int) (rs : List resultset_t) (t : List (RowKey × HostValue)),
      i + k = rs.length →
      (∀ j, j < rs.length → ∃ b, bs[j]? = some b ∧ b.len = (F.column j).1) →
      (∀ j, j < rs.length → -32768 ≤ column_type rs j ∧ column_type rs j ≤ 32767) →
      (fetch_columns true F bs k i d rs t).1 =
        .row (store_all ((List.range k).map
          (fun (j : Nat) =>
            (RowKey.name (column_name rs (i + j)), column_reference F rs (i + j)))) t) := by
  induction k with
  | zero => intro i d rs t _ _ _; simp [fetch_columns, store_all]
  | succ k ih =>
    intro i d rs t hlen hbs htypes
    have hi : i < rs.length := by omega
    obtain ⟨b, hb, hblen⟩ := hbs i hi
    have hr : rs[i]? = some rs[i] := List.getElem?_eq_getElem hi
    have htype : column_type rs i = rs[i].type := by simp [column_type, hr]
    have hname : column_name rs i = strlower rs[i].name := by simp [column_name, hr]
    have hpush : push_value (db2_to_lua_push (to_unsigned rs[i].type) b.len) (F.column i).2 =
        some (column_reference F rs i) := by
      rw [hblen]
      unfold column_reference
      rw [htype]
      exact push_value_eq_reference _ (by rw [← htype]; exact htypes i hi) _ _
    have hrec := ih (i + 1) d (rs.set i { rs[i] with name := strlower rs[i].name })
      (lua_rawset t (.name (strlower rs[i].name)) (column_reference F rs i))
      (by simp; omega) (by simpa using hbs)
      (by
        intro j hj
        rw [column_type_set_name rs i rs[i] hr]
        exact htypes j (by simpa using hj))
    unfold fetch_columns
    simp only [hr, hb, hpush, if_true, LUA_PUSH_ATTRIB]
    refine hrec.trans ?_
    congr 1
    rw [List.range_succ_eq_map, List.map_cons, List.map_map, store_all_cons]
    congr 1
    · apply List.map_congr_left
      intro j _
      simp only [Function.comp, column_reference_set_name F rs i rs[i] hr]
      rw [column_name_set_name rs i rs[i] _ (i + 1 + j) (by omega)]
      congr 2
      · congr 1; omega
      · omega
    · simp [hname]

/-- C9, amended: on a statement whose arrays are non-null and hold `N`
columns (with native type codes in the range of `SQLSMALLINT`), when the
native fetch delivers a row (its code is not `SQL_NO_DATA_FOUND`),
`statement_fetch_impl` with `named = false` returns a table in which the key
`i` holds the value the conversion rule of the specification gives column
`i`, for every `i` in 1..N, and whose keys are exactly the indices in 1..N of
the columns whose value is not null; with `named = true` every key of the
table is a lower-cased column name, and the lower-cased name of a column that
no later column shares holds the value of that column and is a key exactly
when the value is not null. -/
theorem statement_fetch_impl_table (F : FetchNative) (s : statement_t) (p q : Nat)
    (rs : List resultset_t) (bs : List bindparams_t)
    (hrs : s.resultset = some (p, rs)) (hbs : s.bind = some (q, bs))
    (hn1 : (rs.length : Int) = s.num_result_columns)
    (hn2 : (bs.length : Int) = s.num_result_columns)
    (htypes : ∀ r ∈ rs, -32768 ≤ r.type ∧ r.type ≤ 32767)
    (hrow : F.SQLFetch ≠ SQL_NO_DATA_FOUND) :
    (∃ t, (statement_fetch_impl F s false).1 = .row t ∧
      (∀ i, i < rs.length →
        lua_rawget t (.index ((i : Int) + 1)) = column_reference F rs i) ∧
      (∀ k, k ∈ t.map Prod.fst ↔
        ∃ i, i < rs.length ∧ k = .index ((i : Int) + 1) ∧
          column_reference F rs i ≠ .nil)) ∧
    (∃ t, (statement_fetch_impl F s true).1 = .row t ∧
      (∀ k, k ∈ t.map Prod.fst → ∃ i, i < rs.length ∧ k = .name (column_name rs i)) ∧
      (∀ i, i < rs.length →
        (∀ j, i < j → j < rs.length → column_name rs j ≠ column_name rs i) →
        lua_rawget t (.name (column_name rs i)) = column_reference F rs i ∧
        (RowKey.name (column_name rs i) ∈ t.map Prod.fst ↔
          column_reference F rs i ≠ .nil))) := by
  have hk : s.num_result_columns.toNat = rs.length := by omega
  have hslots : ∀ j, j < rs.length →
      ∃ b, (fetched_slots F.column 0 bs)[j]? = some b ∧ b.len = (F.column j).1 := by
    intro j hj
    obtain ⟨b, h1, h2⟩ := fetched_slots_getElem F.column bs 0 j (by omega)
    exact ⟨b, h1, by simpa using h2⟩
  have hty : ∀ j, j < rs.length → -32768 ≤ column_type rs j ∧ column_type rs j ≤ 32767 := by
    intro j hj
    have hr : rs[j]? = some rs[j] := List.getElem?_eq_getElem hj
    have : column_type rs j = rs[j].type := by simp [column_type, hr]
    rw [this]
    exact htypes _ (List.getElem_mem hj)
  have h1 := fetch_columns_unnamed F (fetched_slots F.column 0 bs) rs.length 0 1 rs []
    (by omega) hslots hty
  have h2 := fetch_columns_named F (fetched_slots F.column 0 bs) rs.length 0 1 rs []
    (by omega) hslots hty
  have e1 : (fun (j : Nat) => (RowKey.index (1 + (j : Int)), column_reference F rs (0 + j))) =
      (fun (j : Nat) => (RowKey.index ((j : Int) + 1), column_reference F rs j)) := by
    funext j
    simp [add_comm]
  have e2 : (fun (j : Nat) =>
        (RowKey.name (column_name rs (0 + j)), column_reference F rs (0 + j))) =
      (fun (j : Nat) => (RowKey.name (column_name rs j), column_reference F rs j)) := by
    funext j
    simp
  rw [e1] at h1
  rw [e2] at h2
  have g1 := store_all_map_range
    (fun (j : Nat) => (RowKey.index ((j : Int) + 1), column_reference F rs j)) rs.length
  have g2 := store_all_map_range
    (fun (j : Nat) => (RowKey.name (column_name rs j), column_reference F rs j)) rs.length
  have hdist : ∀ i j : Nat, i < j →
      RowKey.index ((j : Int) + 1) ≠ RowKey.index ((i : Int) + 1) := by
    intro i j hij h
    injection h with h
    omega
  unfold statement_fetch_impl
  simp only [hrs, hbs, if_neg hrow, hk]
  refine ⟨⟨_, h1, ?_, ?_⟩, ⟨_, h2, ?_, ?_⟩⟩
  · intro i hi
    exact (g1.2 i hi (fun j hij _ => hdist i j hij)).1
  · intro k
    constructor
    · intro hkm
      obtain ⟨i, hi, hki⟩ := g1.1 k hkm
      refine ⟨i, hi, hki, ?_⟩
      have := (g1.2 i hi (fun j hij _ => hdist i j hij)).2
      rw [hki] at hkm
      exact this.1 hkm
    · rintro ⟨i, hi, hki, hne⟩
      rw [hki]
      exact (g1.2 i hi (fun j hij _ => hdist i j hij)).2.2 hne
  · intro k hkm
    exact g2.1 k hkm
  · intro i hi hlast
    exact g2.2 i hi (fun j hij hj h => hlast j hij hj (by injection h))

/-- C9, amended, at a concrete input: on the statement with the three columns
`ID`, `NAME` and `PRICE`, a fetch of the row `42`, `bob`, `9.5` gives the
table with the keys 1, 2, 3, respectively `id`, `name`, `price`. -/
theorem statement_fetch_impl_table_witness :
    (statement_fetch_impl native_full_row three_column_statement false).1 =
      .row [(.index 1, .integer ['4', '2']), (.index 2, .string ['b', 'o', 'b']),
        (.index 3, .number ['9', '.', '5'])] ∧
    (statement_fetch_impl native_full_row three_column_statement true).1 =
      .row [(.name ['i', 'd'], .integer ['4', '2']),
        (.name ['n', 'a', 'm', 'e'], .string ['b', 'o', 'b']),
        (.name ['p', 'r', 'i', 'c', 'e'], .number ['9', '.', '5'])] ∧
    ((∃ t, (statement_fetch_impl native_full_row three_column_statement false).1 = .row t ∧
      (∀ i, i < three_descriptors.length →
        lua_rawget t (.index ((i : Int) + 1)) =
          column_reference native_full_row three_descriptors i) ∧
      (∀ k, k ∈ t.map Prod.fst ↔
        ∃ i, i < three_descriptors.length ∧ k = .index ((i : Int) + 1) ∧
          column_reference native_full_row three_descriptors i ≠ .nil)) ∧
    (∃ t, (statement_fetch_impl native_full_row three_column_statement true).1 = .row t ∧
      (∀ k, k ∈ t.map Prod.fst →
        ∃ i, i < three_descriptors.length ∧ k = .name (column_name three_descriptors i)) ∧
      (∀ i, i < three_descriptors.length →
        (∀ j, i < j → j < three_descriptors.length →
          column_name three_descriptors j ≠ column_name three_descriptors i) →
        lua_rawget t (.name (column_name three_descriptors i)) =
          column_reference native_full_row three_descriptors i ∧
        (RowKey.name (column_name three_descriptors i) ∈ t.map Prod.fst ↔
          column_reference native_full_row three_descriptors i ≠ .nil)))) :=
  ⟨by decide, by decide,
    statement_fetch_impl_table native_full_row three_column_statement 100 101
      three_descriptors three_slots (by decide) (by decide) (by decide) (by decide)
      (by decide) (by decide)⟩

end DbdDb2
